import Mathlib

/-!
# Verification of the cursor-trade-bot price-prediction script

Shallow embedding of `src/services/ml/predict.py` (class `PricePredictor`
and its `__main__` CLI entry), together with theorems settling the frozen
claims about the script.

Modelling conventions:
* pandas/NumPy float cells are modelled by `FVal`: either NaN, +inf, -inf,
  or a finite rational.  All arithmetic used by the script (sums, division,
  squaring) is given its IEEE-754 semantics on this domain, restricted to
  the operations the script performs.
* `df['close'].rolling(window=w).mean()` / `.std()` are `rollingMean` /
  `rollingStd` (sample standard deviation, divisor `w - 1`, as pandas).
  Since ℚ is not closed under square roots, `FVal.sqrtF` on finite values
  uses `Rat.sqrt` as a value-level stand-in for the real square root; it is
  NaN/definedness-faithful (NaN for NaN or negative input), and no theorem
  below inspects the numeric value of the volatility column.
* `Series.pct_change()` is `pctAt`: pandas forward-fills NaNs and computes
  `filled / filled.shift(1) - 1`; position 0 is NaN.
* `df.dropna()` drops every row containing a NaN in any column.
* Randomness (`np.random.normal`), the clock (`datetime.now().isoformat()`)
  and the possibility of an exception inside `predict`'s `try` block are
  explicit parameters, so the stateful/effectful code becomes pure.
-/

set_option maxRecDepth 16384

/-- A pandas/NumPy double as far as the script can observe it:
not-a-number, one of the two infinities, or a finite value (modelled
as a rational). -/
inductive FVal where
  | nan : FVal
  | inf : FVal
  | ninf : FVal
  | fin : ℚ → FVal
deriving DecidableEq, Repr

namespace FVal

/-- IEEE addition restricted to this domain: NaN is absorbing and
opposite infinities annihilate to NaN. -/
def add : FVal → FVal → FVal
  | nan, _ => nan
  | _, nan => nan
  | inf, ninf => nan
  | ninf, inf => nan
  | inf, _ => inf
  | _, inf => inf
  | ninf, _ => ninf
  | _, ninf => ninf
  | fin a, fin b => fin (a + b)

/-- IEEE negation. -/
def neg : FVal → FVal
  | nan => nan
  | inf => ninf
  | ninf => inf
  | fin a => fin (-a)

/-- IEEE subtraction. -/
def sub (a b : FVal) : FVal := a.add b.neg

/-- IEEE squaring. -/
def sq : FVal → FVal
  | nan => nan
  | inf => inf
  | ninf => inf
  | fin a => fin (a * a)

/-- IEEE division, as used by `pct_change` (`x / x.shift(1)`):
0/0, NaN operands and inf/inf give NaN; division of a nonzero finite
value by (positive) zero gives a signed infinity; finite/inf gives 0. -/
def fdiv : FVal → FVal → FVal
  | nan, _ => nan
  | _, nan => nan
  | inf, inf => nan
  | inf, ninf => nan
  | ninf, inf => nan
  | ninf, ninf => nan
  | inf, fin p => if p < 0 then ninf else inf
  | ninf, fin p => if p < 0 then inf else ninf
  | fin _, inf => fin 0
  | fin _, ninf => fin 0
  | fin c, fin p =>
      if p = 0 then (if c = 0 then nan else if 0 < c then inf else ninf)
      else fin (c / p)

/-- Division by a (positive) natural constant, used for the rolling-window
mean (divisor `w`) and sample variance (divisor `w - 1`). -/
def divConst (x : FVal) (n : Nat) : FVal :=
  match x with
  | nan => nan
  | inf => inf
  | ninf => ninf
  | fin a => fin (a / (n : ℚ))

/-- Integer square root by downward search, structurally recursive so that
concrete instances evaluate inside the kernel. -/
def isqrtAux (n : Nat) : Nat → Nat
  | 0 => 0
  | k + 1 => if (k + 1) * (k + 1) ≤ n then k + 1 else isqrtAux n k

/-- Integer square root (largest `k ≤ n` with `k * k ≤ n`). -/
def isqrt (n : Nat) : Nat := isqrtAux n n

/-- Rational stand-in for the real square root (ℚ is not closed under the
true square root the source's `.std()` takes): exact on perfect squares,
an integer-square-root approximation otherwise.  Only its definedness
matters to the claims, never its numeric value. -/
def ratSqrt (q : ℚ) : ℚ := (isqrt q.num.toNat : ℚ) / (isqrt q.den : ℚ)

/-- IEEE square root on this domain: NaN for NaN or negative input,
`ratSqrt` as the value-level stand-in on nonnegative finite input
(definedness-faithful; no claim inspects the numeric value). -/
def sqrtF : FVal → FVal
  | nan => nan
  | inf => inf
  | ninf => nan
  | fin q => if q < 0 then nan else fin (ratSqrt q)

/-- Is this value NaN? (`df.dropna()` drops exactly NaN, not infinities.) -/
def isNan : FVal → Bool
  | nan => true
  | _ => false

/-- Is this value finite? -/
def isFin : FVal → Bool
  | fin _ => true
  | _ => false

/-- Is this a nonnegative finite value? -/
def finNonneg : FVal → Bool
  | fin q => decide (0 ≤ q)
  | _ => false

end FVal

/-- Sum of a list of floats (`nan`-absorbing), the core of a rolling mean. -/
def fsum (l : List FVal) : FVal := l.foldr FVal.add (FVal.fin 0)

/-- pandas forward-fill (`fillna(method='pad')`) helper: each NaN is
replaced by the last preceding non-NaN value (leading NaNs stay NaN,
encoded by the `last` accumulator starting at NaN). -/
def ffillAux (last : FVal) : List FVal → List FVal
  | [] => []
  | x :: xs =>
      let y := if x.isNan then last else x
      y :: ffillAux y xs

/-- pandas forward-fill of a column. -/
def ffill (xs : List FVal) : List FVal := ffillAux FVal.nan xs

/-- `series.rolling(window=w).mean()` evaluated at row `i` (0-based):
NaN during the warm-up (`i + 1 < w`, pandas' default
`min_periods = window`), otherwise the mean of the last `w` values. -/
def rollingMean (w : Nat) (xs : List FVal) (i : Nat) : FVal :=
  if i + 1 < w then FVal.nan
  else FVal.divConst (fsum ((xs.drop (i + 1 - w)).take w)) w

/-- Sample variance (divisor `w - 1`) of the `w`-window ending at row `i`;
NaN during the warm-up. -/
def rollingVar (w : Nat) (xs : List FVal) (i : Nat) : FVal :=
  if i + 1 < w then FVal.nan
  else
    let win := (xs.drop (i + 1 - w)).take w
    let m := FVal.divConst (fsum win) w
    FVal.divConst (fsum (win.map (fun x => (x.sub m).sq))) (w - 1)

/-- `series.rolling(window=w).std()` evaluated at row `i` (sample standard
deviation, as pandas): square root of the sample variance. -/
def rollingStd (w : Nat) (xs : List FVal) (i : Nat) : FVal :=
  (rollingVar w xs i).sqrtF

/-- `series.pct_change()` evaluated at row `i`: NaN at row 0, otherwise
`filled[i] / filled[i-1] - 1` on the forward-filled column. -/
def pctAt (xs : List FVal) (i : Nat) : FVal :=
  if i = 0 then FVal.nan
  else
    let f := ffill xs
    (FVal.fdiv (f.getD i FVal.nan) (f.getD (i - 1) FVal.nan)).sub (FVal.fin 1)

/-- One row of the raw time-series table produced by
`fetch_historical_data`: the five OHLCV columns (the Python column name
`open` is a Lean keyword, rendered `opn`). -/
structure RawRow where
  opn : FVal
  high : FVal
  low : FVal
  close : FVal
  volume : FVal
deriving DecidableEq, Repr

instance : Inhabited RawRow :=
  ⟨⟨FVal.fin 0, FVal.fin 0, FVal.fin 0, FVal.fin 0, FVal.fin 0⟩⟩

/-- Are all five OHLCV cells finite? -/
def RawRow.allFin (r : RawRow) : Bool :=
  r.opn.isFin && r.high.isFin && r.low.isFin && r.close.isFin && r.volume.isFin

/-- One row of the feature table built by `prepare_features`: the five
original columns plus the five derived columns, with the source's column
names. -/
structure FeatRow where
  opn : FVal
  high : FVal
  low : FVal
  close : FVal
  volume : FVal
  SMA_5 : FVal
  SMA_20 : FVal
  price_momentum : FVal
  volume_momentum : FVal
  volatility : FVal
deriving DecidableEq, Repr

instance : Inhabited FeatRow :=
  ⟨⟨FVal.nan, FVal.nan, FVal.nan, FVal.nan, FVal.nan,
    FVal.nan, FVal.nan, FVal.nan, FVal.nan, FVal.nan⟩⟩

/-- Does the row contain a NaN in any of its ten columns?  This is the
predicate `df.dropna()` drops by. -/
def FeatRow.hasNan (r : FeatRow) : Bool :=
  r.opn.isNan || r.high.isNan || r.low.isNan || r.close.isNan ||
  r.volume.isNan || r.SMA_5.isNan || r.SMA_20.isNan ||
  r.price_momentum.isNan || r.volume_momentum.isNan || r.volatility.isNan

/-- Are the five derived columns all non-NaN?  This is the predicate the
spec's words describe (`drop every row containing any undefined value in
the derived columns`), used to compare spec against code. -/
def FeatRow.derivedDefined (r : FeatRow) : Bool :=
  !r.SMA_5.isNan && !r.SMA_20.isNan && !r.price_momentum.isNan &&
  !r.volume_momentum.isNan && !r.volatility.isNan

/-- Row `i` of the DataFrame after the five column assignments in
`prepare_features` (before `dropna`): the original cells plus
`SMA_5 = close.rolling(5).mean()`, `SMA_20 = close.rolling(20).mean()`,
`price_momentum = close.pct_change()`,
`volume_momentum = volume.pct_change()`,
`volatility = close.rolling(5).std()`. -/
def featRow (rows : List RawRow) (i : Nat) : FeatRow :=
  let r := rows.getD i default
  let closes := rows.map RawRow.close
  let volumes := rows.map RawRow.volume
  { opn := r.opn, high := r.high, low := r.low, close := r.close,
    volume := r.volume,
    SMA_5 := rollingMean 5 closes i,
    SMA_20 := rollingMean 20 closes i,
    price_momentum := pctAt closes i,
    volume_momentum := pctAt volumes i,
    volatility := rollingStd 5 closes i }

/-- The feature DataFrame before `dropna`: every input row, annotated. -/
def annotated (rows : List RawRow) : List FeatRow :=
  (List.range rows.length).map (featRow rows)

/-- `PricePredictor.prepare_features`: assign the five derived columns,
then `df.dropna()`. -/
def prepare_features (rows : List RawRow) : List FeatRow :=
  (annotated rows).filter (fun r => !r.hasNan)

/-! ## Definedness lemmas for the float domain -/

namespace FVal

theorem isNan_eq_false_of_isFin {x : FVal} (h : x.isFin = true) :
    x.isNan = false := by
  cases x <;> simp_all [isFin, isNan]

theorem exists_of_isFin {x : FVal} (h : x.isFin = true) : ∃ q, x = fin q := by
  cases x <;> simp_all [isFin]

theorem add_isFin {x y : FVal} (hx : x.isFin = true) (hy : y.isFin = true) :
    (x.add y).isFin = true := by
  cases x <;> cases y <;> simp_all [isFin, add]

theorem neg_isFin {x : FVal} (hx : x.isFin = true) : x.neg.isFin = true := by
  cases x <;> simp_all [isFin, neg]

theorem sub_isFin {x y : FVal} (hx : x.isFin = true) (hy : y.isFin = true) :
    (x.sub y).isFin = true :=
  add_isFin hx (neg_isFin hy)

theorem divConst_isFin {x : FVal} (n : Nat) (h : x.isFin = true) :
    (x.divConst n).isFin = true := by
  cases x <;> simp_all [isFin, divConst]

theorem sq_finNonneg {x : FVal} (h : x.isFin = true) :
    x.sq.finNonneg = true := by
  cases x <;> simp_all [isFin, sq, finNonneg, mul_self_nonneg]

theorem add_finNonneg {x y : FVal} (hx : x.finNonneg = true)
    (hy : y.finNonneg = true) : (x.add y).finNonneg = true := by
  cases x <;> cases y <;> simp_all [finNonneg, add]
  exact add_nonneg hx hy

theorem divConst_finNonneg {x : FVal} (n : Nat) (h : x.finNonneg = true) :
    (x.divConst n).finNonneg = true := by
  cases x <;> simp_all [finNonneg, divConst]
  exact div_nonneg h (Nat.cast_nonneg n)

theorem sqrtF_isFin_of_finNonneg {x : FVal} (h : x.finNonneg = true) :
    x.sqrtF.isFin = true := by
  cases x <;> simp_all [finNonneg, sqrtF]
  rw [if_neg (not_lt.mpr h)]
  rfl

theorem fdiv_fin_sub_one_isNan_false (c p : ℚ) (h : ¬(p = 0 ∧ c = 0)) :
    (((fin c).fdiv (fin p)).sub (fin 1)).isNan = false := by
  by_cases hp : p = 0
  · have hc : c ≠ 0 := fun h0 => h ⟨hp, h0⟩
    subst hp
    by_cases hcpos : 0 < c <;>
      simp [fdiv, hc, hcpos, sub, add, neg, isNan]
  · simp [fdiv, hp, sub, add, neg, isNan]

end FVal

theorem fsum_isFin {l : List FVal} (h : ∀ x ∈ l, x.isFin = true) :
    (fsum l).isFin = true := by
  induction l with
  | nil => simp [fsum, FVal.isFin]
  | cons a l ih =>
      simp only [fsum, List.foldr_cons]
      exact FVal.add_isFin (h a (by simp))
        (ih fun x hx => h x (by simp [hx]))

theorem fsum_finNonneg {l : List FVal} (h : ∀ x ∈ l, x.finNonneg = true) :
    (fsum l).finNonneg = true := by
  induction l with
  | nil => simp [fsum, FVal.finNonneg]
  | cons a l ih =>
      simp only [fsum, List.foldr_cons]
      exact FVal.add_finNonneg (h a (by simp))
        (ih fun x hx => h x (by simp [hx]))

theorem mem_of_mem_window {xs : List FVal} {a w : Nat} {x : FVal}
    (hx : x ∈ (xs.drop a).take w) : x ∈ xs :=
  List.mem_of_mem_drop (List.mem_of_mem_take hx)

theorem rollingMean_isFin (w : Nat) (xs : List FVal) (i : Nat)
    (hw : w ≤ i + 1) (hx : ∀ x ∈ xs, x.isFin = true) :
    (rollingMean w xs i).isFin = true := by
  unfold rollingMean
  rw [if_neg (by omega)]
  exact FVal.divConst_isFin _
    (fsum_isFin fun x hm => hx x (mem_of_mem_window hm))

theorem rollingVar_finNonneg (w : Nat) (xs : List FVal) (i : Nat)
    (hw : w ≤ i + 1) (hx : ∀ x ∈ xs, x.isFin = true) :
    (rollingVar w xs i).finNonneg = true := by
  unfold rollingVar
  rw [if_neg (by omega)]
  simp only []
  apply FVal.divConst_finNonneg
  apply fsum_finNonneg
  intro y hy
  rcases List.mem_map.mp hy with ⟨x, hxm, rfl⟩
  apply FVal.sq_finNonneg
  apply FVal.sub_isFin (hx x (mem_of_mem_window hxm))
  exact FVal.divConst_isFin _
    (fsum_isFin fun z hz => hx z (mem_of_mem_window hz))

theorem rollingStd_isFin (w : Nat) (xs : List FVal) (i : Nat)
    (hw : w ≤ i + 1) (hx : ∀ x ∈ xs, x.isFin = true) :
    (rollingStd w xs i).isFin = true :=
  FVal.sqrtF_isFin_of_finNonneg (rollingVar_finNonneg w xs i hw hx)

theorem ffillAux_eq_self (a : FVal) (l : List FVal)
    (h : ∀ x ∈ l, x.isNan = false) : ffillAux a l = l := by
  induction l generalizing a with
  | nil => rfl
  | cons x xs ih =>
      have hx : x.isNan = false := h x (by simp)
      simp [ffillAux, hx]
      exact ih x fun y hy => h y (by simp [hy])

theorem ffill_eq_self (l : List FVal) (h : ∀ x ∈ l, x.isNan = false) :
    ffill l = l :=
  ffillAux_eq_self _ _ h

theorem pctAt_isNan_false (xs : List FVal) (i : Nat) (h0 : i ≠ 0)
    (hi : i < xs.length) (hx : ∀ x ∈ xs, x.isFin = true)
    (hz : ¬(xs.getD (i - 1) FVal.nan = FVal.fin 0 ∧
            xs.getD i FVal.nan = FVal.fin 0)) :
    (pctAt xs i).isNan = false := by
  unfold pctAt
  rw [if_neg h0,
    ffill_eq_self xs fun x hm => FVal.isNan_eq_false_of_isFin (hx x hm)]
  have hic : xs.getD i FVal.nan ∈ xs := by
    rw [List.getD_eq_getElem xs _ hi]; exact List.getElem_mem hi
  have hip : xs.getD (i - 1) FVal.nan ∈ xs := by
    rw [List.getD_eq_getElem xs _ (by omega)]
    exact List.getElem_mem (by omega)
  rcases FVal.exists_of_isFin (hx _ hic) with ⟨c, hc⟩
  rcases FVal.exists_of_isFin (hx _ hip) with ⟨p, hp⟩
  show (((xs.getD i FVal.nan).fdiv (xs.getD (i - 1) FVal.nan)).sub
      (FVal.fin 1)).isNan = false
  rw [hc, hp]
  apply FVal.fdiv_fin_sub_one_isNan_false
  rintro ⟨rfl, rfl⟩
  exact hz ⟨hp, hc⟩

/-! ## Row-level lemmas for `prepare_features` -/

theorem featRow_hasNan_of_lt19 (rows : List RawRow) (i : Nat) (h : i < 19) :
    (featRow rows i).hasNan = true := by
  have h20 : i + 1 < 20 := by omega
  have hs : (featRow rows i).SMA_20 = FVal.nan := by
    show rollingMean 20 (rows.map RawRow.close) i = FVal.nan
    unfold rollingMean
    rw [if_pos h20]
  simp [FeatRow.hasNan, hs, FVal.isNan]

theorem featRow_not_hasNan (rows : List RawRow) (i : Nat)
    (hi : i < rows.length) (h19 : 19 ≤ i)
    (hfin : ∀ r ∈ rows, r.allFin = true)
    (hc : ¬((rows.map RawRow.close).getD (i - 1) FVal.nan = FVal.fin 0 ∧
            (rows.map RawRow.close).getD i FVal.nan = FVal.fin 0))
    (hv : ¬((rows.map RawRow.volume).getD (i - 1) FVal.nan = FVal.fin 0 ∧
            (rows.map RawRow.volume).getD i FVal.nan = FVal.fin 0)) :
    (featRow rows i).hasNan = false := by
  have hcl : ∀ x ∈ rows.map RawRow.close, x.isFin = true := by
    intro x hx
    rcases List.mem_map.mp hx with ⟨r, hr, rfl⟩
    have h5 := hfin r hr
    simp only [RawRow.allFin, Bool.and_eq_true] at h5
    exact h5.1.2
  have hvl : ∀ x ∈ rows.map RawRow.volume, x.isFin = true := by
    intro x hx
    rcases List.mem_map.mp hx with ⟨r, hr, rfl⟩
    have h5 := hfin r hr
    simp only [RawRow.allFin, Bool.and_eq_true] at h5
    exact h5.2
  have hrm : rows.getD i default ∈ rows := by
    rw [List.getD_eq_getElem rows _ hi]; exact List.getElem_mem hi
  have h5 := hfin _ hrm
  simp only [RawRow.allFin, Bool.and_eq_true] at h5
  have hlen : i < (rows.map RawRow.close).length := by
    rw [List.length_map]; exact hi
  have hlenv : i < (rows.map RawRow.volume).length := by
    rw [List.length_map]; exact hi
  have e1 : (rollingMean 5 (rows.map RawRow.close) i).isNan = false :=
    FVal.isNan_eq_false_of_isFin (rollingMean_isFin 5 _ i (by omega) hcl)
  have e2 : (rollingMean 20 (rows.map RawRow.close) i).isNan = false :=
    FVal.isNan_eq_false_of_isFin (rollingMean_isFin 20 _ i (by omega) hcl)
  have e3 : (pctAt (rows.map RawRow.close) i).isNan = false :=
    pctAt_isNan_false _ i (by omega) hlen hcl hc
  have e4 : (pctAt (rows.map RawRow.volume) i).isNan = false :=
    pctAt_isNan_false _ i (by omega) hlenv hvl hv
  have e5 : (rollingStd 5 (rows.map RawRow.close) i).isNan = false :=
    FVal.isNan_eq_false_of_isFin (rollingStd_isFin 5 _ i (by omega) hcl)
  have o1 := FVal.isNan_eq_false_of_isFin h5.1.1.1.1
  have o2 := FVal.isNan_eq_false_of_isFin h5.1.1.1.2
  have o3 := FVal.isNan_eq_false_of_isFin h5.1.1.2
  have o4 := FVal.isNan_eq_false_of_isFin h5.1.2
  have o5 := FVal.isNan_eq_false_of_isFin h5.2
  simp [FeatRow.hasNan, featRow, e1, e2, e3, e4, e5]
  simp only [← List.getD_eq_getElem?_getD]
  exact ⟨⟨⟨⟨o1, o2⟩, o3⟩, o4⟩, o5⟩

/-- Filtering an indexed family keeps exactly the tail from index `k` when
the predicate holds precisely from `k` on. -/
theorem filter_map_range_eq_drop {α : Type} (f : Nat → α) (p : α → Bool)
    (n k : Nat) (hk : k ≤ n)
    (h : ∀ i, i < n → (p (f i) = true ↔ k ≤ i)) :
    ((List.range n).map f).filter p = ((List.range n).map f).drop k := by
  have hsplit : List.range n = List.range' 0 k ++ List.range' k (n - k) := by
    rw [List.range_eq_range']
    have happ := List.range'_append 0 k (n - k) 1
    simp only [Nat.one_mul, Nat.zero_add] at happ
    rw [show n - k + k = n from by omega] at happ
    exact happ.symm
  rw [hsplit, List.map_append, List.filter_append]
  have h1 : (List.map f (List.range' 0 k)).filter p = [] := by
    apply List.filter_eq_nil_iff.mpr
    intro a ha
    rcases List.mem_map.mp ha with ⟨i, hi, rfl⟩
    have hir := List.mem_range'_1.mp hi
    intro hp
    have := (h i (by omega)).mp hp
    omega
  have h2 : (List.map f (List.range' k (n - k))).filter p =
      List.map f (List.range' k (n - k)) := by
    apply List.filter_eq_self.mpr
    intro a ha
    rcases List.mem_map.mp ha with ⟨i, hi, rfl⟩
    have hir := List.mem_range'_1.mp hi
    exact (h i (by omega)).mpr (by omega)
  rw [h1, h2, List.nil_append]
  exact (@List.drop_left' _ (List.map f (List.range' 0 k))
    (List.map f (List.range' k (n - k))) k (by simp)).symm

/-! ## Fetching: `fetch_historical_data` -/

/-- One bar of the provider's JSON response: the five OHLCV fields, still
as strings (Alpha Vantage sends numbers as JSON strings; §6 of the design
fixes this five-field shape per record). -/
structure TSBar where
  opn : String
  high : String
  low : String
  close : String
  volume : String
deriving DecidableEq, Repr

/-- Fold a digit string into a natural number. -/
def digitsToNat (cs : List Char) : Nat :=
  cs.foldl (fun a c => a * 10 + (c.toNat - 48)) 0

/-- Model of Python's `float(s)` (via pandas `astype(float)`) on the
string shapes relevant here: an optional sign followed by a decimal
numeral (`"12"`, `"1.5"`, `".5"`, `"3."`), or `nan` / `inf`; anything
else (such as `"abc"`) fails, modelling the `ValueError` that
`astype(float)` raises.  (Exponents and surrounding whitespace, which the
provider never sends, are outside the modelled subset.) -/
def parseFloat (s : String) : Option FVal :=
  let cs := s.toList
  let signed : Bool × List Char :=
    match cs with
    | '-' :: rest => (true, rest)
    | '+' :: rest => (false, rest)
    | _ => (false, cs)
  let neg := signed.1
  let body := signed.2
  if body = ['n', 'a', 'n'] ∨ body = ['N', 'a', 'N'] then some FVal.nan
  else if body = ['i', 'n', 'f'] ∨ body = ['I', 'n', 'f'] then
    some (if neg then FVal.ninf else FVal.inf)
  else
    let intPart := body.takeWhile Char.isDigit
    let rest := body.dropWhile Char.isDigit
    let mk : List Char → FVal := fun frac =>
      let q : ℚ := (digitsToNat intPart : ℚ) +
        (digitsToNat frac : ℚ) / ((10 : ℚ) ^ frac.length)
      FVal.fin (if neg then -q else q)
    match rest with
    | [] => if intPart = [] then none else some (mk [])
    | '.' :: frac =>
        if frac.all Char.isDigit ∧ (intPart ≠ [] ∨ frac ≠ []) then
          some (mk frac)
        else none
    | _ => none

/-- `astype(float)` on one bar: all five fields must parse. -/
def parseBar (b : TSBar) : Option RawRow := do
  let o ← parseFloat b.opn
  let h ← parseFloat b.high
  let l ← parseFloat b.low
  let c ← parseFloat b.close
  let v ← parseFloat b.volume
  pure ⟨o, h, l, c, v⟩

/-- `astype(float)` over the whole timestamp-indexed series. -/
def parseSeries : List (String × TSBar) → Option (List (String × RawRow))
  | [] => some []
  | (t, b) :: rest => do
      let r ← parseBar b
      let rs ← parseSeries rest
      pure ((t, r) :: rs)

/-- The top-level JSON key the source checks for. -/
def tsKey : String := "Time Series (5min)"

/-- How `fetch_historical_data` can fail: the explicit
`raise Exception('Failed to fetch data from Alpha Vantage')` when the key
is absent (the spec's `DataUnavailable`), or a `ValueError` from the
DataFrame machinery — the `df.columns = [...]` assignment on the
0-column frame an empty series produces, or `astype(float)` on a
non-numeric field value. -/
inductive FetchError where
  | dataUnavailable (msg : String) : FetchError
  | valueError : FetchError
deriving DecidableEq, Repr

/-- `PricePredictor.fetch_historical_data`, as a function of the
provider's (decoded JSON) response: the top-level object is an
association list from keys to series-shaped values.  If
`'Time Series (5min)'` is absent, raise; otherwise build the
timestamp-indexed frame, assign the five column names, and convert every
cell to float.  With an empty series, `from_dict` yields a 0-column
frame and the `df.columns = ['open', ...]` assignment raises
`ValueError: Length mismatch` before any table is returned; with a
non-empty series (each bar has the five fields) the assignment succeeds
and `astype(float)` raises `ValueError` on any non-numeric cell. -/
def fetch_historical_data (data : List (String × List (String × TSBar))) :
    Except FetchError (List (String × RawRow)) :=
  match data.lookup tsKey with
  | none => .error (.dataUnavailable "Failed to fetch data from Alpha Vantage")
  | some series =>
      if series = [] then .error .valueError
      else
        match parseSeries series with
        | none => .error .valueError
        | some rows => .ok rows

deriving instance DecidableEq for Except

/-- Did the call fail with the `DataUnavailable` error (as opposed to
succeeding or failing with a parse `ValueError`)? -/
def isDataUnavailable (e : Except FetchError (List (String × RawRow))) : Bool :=
  match e with
  | .error (.dataUnavailable _) => true
  | _ => false

/-! ## The predictor: state, `train`, `predict`, CLI -/

/-- The `PricePredictor` object.  `model`/`scaler` start unfitted
(`LinearRegression()` / `StandardScaler()` in `__init__`, modelled as
`none`); after `train` they hold the data they were fitted on (the
numeric output of the least-squares fit and of the scaler is library
behaviour no claim inspects).  `features` is the fixed ordered list of
the five base feature names. -/
structure PricePredictor where
  model : Option (List (List FVal) × List FVal)
  scaler : Option (List (List FVal))
  features : List String
deriving DecidableEq, Repr

/-- `PricePredictor.__init__`. -/
def PricePredictor.init : PricePredictor :=
  { model := none, scaler := none,
    features := ["open", "high", "low", "close", "volume"] }

/-- `X = df[self.features].values` followed by `X = X[:-1]`: the
five base OHLCV columns of every surviving row except the last. -/
def trainX (f : List FeatRow) : List (List FVal) :=
  (f.map (fun r => [r.opn, r.high, r.low, r.close, r.volume])).dropLast

/-- `y = df['close'].shift(-1).values[:-1]`: each position holds the next
row's close (the shifted column ends in NaN, removed by `[:-1]`). -/
def trainY (f : List FeatRow) : List FVal :=
  ((List.range f.length).map
    (fun i => (f.map FeatRow.close).getD (i + 1) FVal.nan)).dropLast

/-- How `train` can fail: an error propagated from the fetch step, or the
`ValueError` sklearn's `fit` raises when the training set is empty
(`Found array with 0 sample(s)`).  The source has no try/except in
`train`, so every error propagates to the caller; there is no
`InsufficientData` check. -/
inductive TrainError where
  | fetchErr (e : FetchError) : TrainError
  | sklearnValueError : TrainError
deriving DecidableEq, Repr

/-- `PricePredictor.train`: fetch, derive features, build `(X, y)` by the
shift-by-one construction, then fit scaler and model on it.  With zero
training examples sklearn's fit raises; with one or more it fits without
complaint — the source never checks for a minimum sample count. -/
def train (p : PricePredictor)
    (data : List (String × List (String × TSBar))) :
    Except TrainError PricePredictor :=
  match fetch_historical_data data with
  | .error e => .error (.fetchErr e)
  | .ok ts =>
      let df := prepare_features (ts.map Prod.snd)
      let X := trainX df
      let y := trainY df
      if X.length = 0 then .error .sklearnValueError
      else .ok { p with scaler := some X, model := some (X, y) }

/-- The record `predict` serializes on success, with the source's key
names (`float(...)` coercions included; `timestamp` is
`datetime.now().isoformat()`, passed in as `now`). -/
structure PredictionOk where
  current_price : ℚ
  predicted_price : ℚ
  predicted_change_percent : ℚ
  confidence_score : ℚ
  timestamp : String
deriving DecidableEq, Repr

/-- What one run of `predict` prints to stdout: either the success record
or the `{error, timestamp}` object from the `except` branch. -/
inductive Printed where
  | ok (r : PredictionOk) : Printed
  | err (msg : String) (timestamp : String) : Printed
deriving DecidableEq, Repr

/-- The success record built in `predict`'s `try` block:
`current_price = 100.0`, `prediction = current_price * (1 + draw)` where
`draw` is the `np.random.normal(0, 0.02)` sample, and the derived
percent-change and fixed confidence score. -/
def predictResult (draw : ℚ) (now : String) : PredictionOk :=
  let current_price : ℚ := 100
  let prediction : ℚ := current_price * (1 + draw)
  { current_price := current_price,
    predicted_price := prediction,
    predicted_change_percent := (prediction - current_price) / current_price * 100,
    confidence_score := 75 / 100,
    timestamp := now }

/-- `PricePredictor.predict`.  `symbol` is the method's argument (unused
by the body); `draw` the normal sample; `now` the clock reading; `raised`
models whether some exception (with the given string form) interrupts the
`try` block.  Returns what is printed, the boolean result, and the
(unchanged) object state. -/
def PricePredictor.predict (p : PricePredictor) (symbol : String)
    (draw : ℚ) (now : String) (raised : Option String) :
    Printed × Bool × PricePredictor :=
  match raised with
  | none => (.ok (predictResult draw now), true, p)
  | some e => (.err e now, false, p)

/-- The `__main__` block: `argv` is the full `sys.argv` (script name
included, so a correct call has length 2).  Returns what is printed and
the process exit code. -/
def mainRun (argv : List String) (draw : ℚ) (now : String)
    (raised : Option String) : Printed × Nat :=
  if argv.length ≠ 2 then
    (.err "Usage: python predict.py <symbol>" now, 1)
  else
    let predictor := PricePredictor.init
    let r := predictor.predict (argv.getD 1 "") draw now raised
    (r.1, if r.2.1 then 0 else 1)

/-! ## Concrete tables used by witnesses and counterexamples -/

/-- A bar whose five cells are all the finite value 1. -/
def onesRow : RawRow :=
  ⟨FVal.fin 1, FVal.fin 1, FVal.fin 1, FVal.fin 1, FVal.fin 1⟩

/-- 20 identical all-ones rows. -/
def rows20ones : List RawRow := List.replicate 20 onesRow

/-- 5 identical all-ones rows. -/
def rows5ones : List RawRow := List.replicate 5 onesRow

/-- 21 identical all-ones rows. -/
def rows21ones : List RawRow := List.replicate 21 onesRow

/-- 20 rows, all OHLCV cells defined (finite), but volume constantly 0:
`volume.pct_change()` is then 0/0 = NaN at every row. -/
def rows20zeroVol : List RawRow :=
  List.replicate 20 ⟨FVal.fin 1, FVal.fin 1, FVal.fin 1, FVal.fin 1, FVal.fin 0⟩

/-- A row whose `open` cell is NaN while everything else is 1. -/
def nanOpenRow : RawRow :=
  ⟨FVal.nan, FVal.fin 1, FVal.fin 1, FVal.fin 1, FVal.fin 1⟩

/-- 25 rows of ones, except that row 22 has a NaN `open` cell: its five
derived features are all defined (they only read `close`/`volume`), yet
`df.dropna()` drops it. -/
def rows25nanOpen : List RawRow :=
  List.replicate 22 onesRow ++ nanOpenRow :: List.replicate 2 onesRow

/-! ## Claims C1 - C3: the feature pipeline -/

/-- C2 (amended): a row survives `prepare_features` if and only if all
five derived features are defined AND all five original OHLCV cells are
non-NaN — `df.dropna()` inspects every column, not only the derived
ones. -/
theorem mem_prepare_features_iff (rows : List RawRow) (r : FeatRow) :
    r ∈ prepare_features rows ↔
      r ∈ annotated rows ∧ r.derivedDefined = true ∧
      r.opn.isNan = false ∧ r.high.isNan = false ∧ r.low.isNan = false ∧
      r.close.isNan = false ∧ r.volume.isNan = false := by
  unfold prepare_features
  rw [List.mem_filter]
  simp only [FeatRow.hasNan, FeatRow.derivedDefined, Bool.not_eq_true',
    Bool.or_eq_false_iff, Bool.and_eq_true]
  tauto

/-- Witness for C2's amended theorem: row 19 of the all-ones 20-row table
satisfies the right-hand side, hence survives. -/
theorem mem_prepare_features_iff_witness :
    featRow rows20ones 19 ∈ prepare_features rows20ones :=
  (mem_prepare_features_iff rows20ones (featRow rows20ones 19)).mpr
    (by with_unfolding_all decide)

/-- C2 counterexample: in `rows25nanOpen`, row 22 has every derived
feature defined, yet it does not survive `prepare_features` (its `open`
cell is NaN), so definedness of the derived columns is not the only
criterion for dropping a row. -/
theorem derived_defined_dropped_cex :
    (featRow rows25nanOpen 22).derivedDefined = true ∧
    featRow rows25nanOpen 22 ∈ annotated rows25nanOpen ∧
    featRow rows25nanOpen 22 ∉ prepare_features rows25nanOpen := by
  with_unfolding_all decide

/-- C1 (amended): for a table with at least 20 rows, every OHLCV cell
finite, and no two adjacent rows (at the positions that survive the
warm-up) both having close 0 or both having volume 0, the output is
exactly the annotated rows from index 19 on, in input order: `rows - 19`
rows, none containing a NaN in any of the ten columns. -/
theorem prepare_features_complete_rows (rows : List RawRow)
    (hlen : 20 ≤ rows.length)
    (hfin : ∀ r ∈ rows, r.allFin = true)
    (hc : ∀ i, i < rows.length → 19 ≤ i →
        ¬((rows.map RawRow.close).getD (i - 1) FVal.nan = FVal.fin 0 ∧
          (rows.map RawRow.close).getD i FVal.nan = FVal.fin 0))
    (hv : ∀ i, i < rows.length → 19 ≤ i →
        ¬((rows.map RawRow.volume).getD (i - 1) FVal.nan = FVal.fin 0 ∧
          (rows.map RawRow.volume).getD i FVal.nan = FVal.fin 0)) :
    prepare_features rows = (annotated rows).drop 19 ∧
    (prepare_features rows).length = rows.length - 19 ∧
    ∀ r ∈ prepare_features rows, r.hasNan = false := by
  have hmain : prepare_features rows = (annotated rows).drop 19 := by
    unfold prepare_features annotated
    apply filter_map_range_eq_drop (featRow rows) _ rows.length 19 (by omega)
    intro i hi
    constructor
    · intro hp
      by_contra hlt
      have hna := featRow_hasNan_of_lt19 rows i (by omega)
      simp [hna] at hp
    · intro h19
      have hok := featRow_not_hasNan rows i hi h19 hfin (hc i hi h19) (hv i hi h19)
      simp [hok]
  refine ⟨hmain, ?_, ?_⟩
  · rw [hmain, List.length_drop]
    unfold annotated
    rw [List.length_map, List.length_range]
  · intro r hr
    unfold prepare_features at hr
    have := (List.mem_filter.mp hr).2
    simpa using this

/-- Witness for C1's amended theorem at the all-ones 20-row table. -/
theorem prepare_features_complete_rows_witness :
    (20 ≤ rows20ones.length ∧ (∀ r ∈ rows20ones, r.allFin = true) ∧
     (∀ i, i < rows20ones.length → 19 ≤ i →
        ¬((rows20ones.map RawRow.close).getD (i - 1) FVal.nan = FVal.fin 0 ∧
          (rows20ones.map RawRow.close).getD i FVal.nan = FVal.fin 0)) ∧
     (∀ i, i < rows20ones.length → 19 ≤ i →
        ¬((rows20ones.map RawRow.volume).getD (i - 1) FVal.nan = FVal.fin 0 ∧
          (rows20ones.map RawRow.volume).getD i FVal.nan = FVal.fin 0))) ∧
    (prepare_features rows20ones).length = rows20ones.length - 19 :=
  ⟨⟨by with_unfolding_all decide, by with_unfolding_all decide,
    by with_unfolding_all decide, by with_unfolding_all decide⟩,
   (prepare_features_complete_rows rows20ones
     (by with_unfolding_all decide) (by with_unfolding_all decide)
     (by with_unfolding_all decide) (by with_unfolding_all decide)).2.1⟩

/-- C1 counterexample: `rows20zeroVol` has 20 rows with every OHLCV cell
defined (0.0 is a defined float), yet the output has 0 rows, not
`20 - 19 = 1`: the all-zero volume column makes `volume_momentum`
0/0 = NaN on the one row that survives the rolling warm-ups. -/
theorem prepare_features_rows_minus_19_cex :
    rows20zeroVol.length = 20 ∧
    (∀ r ∈ rows20zeroVol, r.allFin = true) ∧
    (prepare_features rows20zeroVol).length = 0 ∧
    (prepare_features rows20zeroVol).length ≠ rows20zeroVol.length - 19 := by
  with_unfolding_all decide

/-- C3: with fewer than 20 rows, `SMA_20` is NaN on every row, so
`dropna` removes them all and `prepare_features` returns the empty table
(it is a total function — nothing raises). -/
theorem prepare_features_short_empty (rows : List RawRow)
    (h : rows.length < 20) : prepare_features rows = [] := by
  unfold prepare_features
  apply List.filter_eq_nil_iff.mpr
  intro r hr
  unfold annotated at hr
  rcases List.mem_map.mp hr with ⟨i, hi, rfl⟩
  have hi2 := List.mem_range.mp hi
  have hna := featRow_hasNan_of_lt19 rows i (by omega)
  simp [hna]

/-- Witness for C3 at a 5-row table. -/
theorem prepare_features_short_empty_witness :
    rows5ones.length < 20 ∧ prepare_features rows5ones = [] :=
  ⟨by with_unfolding_all decide,
   prepare_features_short_empty rows5ones (by with_unfolding_all decide)⟩

/-! ## Claims C4 - C6, C10: `predict` and the CLI -/

/-- C4: in every successful run, `current_price` is the constant 100.0,
`confidence_score` the constant 0.75, `predicted_price` is
`100 * (1 + draw)` for the sampled perturbation `draw`, and
`predicted_change_percent` equals
`(predicted_price - 100.0) / 100.0 * 100` exactly. -/
theorem predictResult_algebra (draw : ℚ) (now : String) :
    (predictResult draw now).current_price = 100 ∧
    (predictResult draw now).confidence_score = 75 / 100 ∧
    (predictResult draw now).predicted_price = 100 * (1 + draw) ∧
    (predictResult draw now).predicted_change_percent =
      ((predictResult draw now).predicted_price - 100) / 100 * 100 :=
  ⟨rfl, rfl, rfl, rfl⟩

/-- C5: `predict` never propagates an exception: if the `try` body runs
to completion it prints the success record and returns `True`; if any
exception is raised it prints `{error: str(e), timestamp}` and returns
`False`. -/
theorem predict_no_propagation (p : PricePredictor) (symbol : String)
    (draw : ℚ) (now : String) (raised : Option String) :
    (raised = none →
      p.predict symbol draw now raised =
        (.ok (predictResult draw now), true, p)) ∧
    (∀ e, raised = some e →
      p.predict symbol draw now raised = (.err e now, false, p)) := by
  constructor
  · rintro rfl; rfl
  · rintro e rfl; rfl

/-- Witness for C5: one non-raising and one raising run. -/
theorem predict_no_propagation_witness :
    PricePredictor.init.predict "AAPL" 0 "2024-01-02T09:30:00" none =
      (.ok (predictResult 0 "2024-01-02T09:30:00"), true, PricePredictor.init) ∧
    PricePredictor.init.predict "AAPL" 0 "2024-01-02T09:30:00" (some "boom") =
      (.err "boom" "2024-01-02T09:30:00", false, PricePredictor.init) :=
  ⟨(predict_no_propagation PricePredictor.init "AAPL" 0
      "2024-01-02T09:30:00" none).1 rfl,
   (predict_no_propagation PricePredictor.init "AAPL" 0
      "2024-01-02T09:30:00" (some "boom")).2 "boom" rfl⟩

/-- C6: the CLI requires exactly one positional argument
(`len(sys.argv) != 2` covers both a missing symbol and extra arguments):
otherwise it prints the usage error with a timestamp and exits 1; with
exactly one argument it constructs a fresh `PricePredictor`, calls
`predict`, and exits 0 on `True`, 1 on `False`. -/
theorem mainRun_cli_contract (argv : List String) (draw : ℚ) (now : String)
    (raised : Option String) :
    (argv.length ≠ 2 →
      mainRun argv draw now raised =
        (.err "Usage: python predict.py <symbol>" now, 1)) ∧
    (argv.length = 2 →
      mainRun argv draw now raised =
        ((PricePredictor.init.predict (argv.getD 1 "") draw now raised).1,
         if (PricePredictor.init.predict (argv.getD 1 "") draw now raised).2.1
         then 0 else 1)) := by
  constructor <;> intro h <;> simp [mainRun, h]

/-- Witness for C6: a no-argument call and a one-argument call. -/
theorem mainRun_cli_contract_witness :
    (["predict.py"].length ≠ 2 ∧
      mainRun ["predict.py"] 0 "t" none =
        (.err "Usage: python predict.py <symbol>" "t", 1)) ∧
    (["predict.py", "MSFT"].length = 2 ∧
      mainRun ["predict.py", "MSFT"] 0 "t" none =
        ((PricePredictor.init.predict (["predict.py", "MSFT"].getD 1 "")
            0 "t" none).1,
         if (PricePredictor.init.predict (["predict.py", "MSFT"].getD 1 "")
              0 "t" none).2.1
         then 0 else 1)) :=
  ⟨⟨by decide, (mainRun_cli_contract ["predict.py"] 0 "t" none).1 (by decide)⟩,
   ⟨rfl, (mainRun_cli_contract ["predict.py", "MSFT"] 0 "t" none).2 rfl⟩⟩

/-- C10: `predict` reads neither the symbol nor the predictor's
model/scaler state and leaves the state unchanged: two runs with equal
draw, clock and exception outcome print the same output and return the
same boolean, whatever the symbol and state. -/
theorem predict_independent_of_symbol_and_state
    (p q : PricePredictor) (s1 s2 : String) (draw : ℚ) (now : String)
    (raised : Option String) :
    (p.predict s1 draw now raised).1 = (q.predict s2 draw now raised).1 ∧
    (p.predict s1 draw now raised).2.1 =
      (q.predict s2 draw now raised).2.1 ∧
    (p.predict s1 draw now raised).2.2 = p := by
  cases raised <;> exact ⟨rfl, rfl, rfl⟩

/-! ## Claims C7 - C9: fetch and train -/

/-- Successful parsing preserves the timestamp index. -/
theorem parseSeries_map_fst (s : List (String × TSBar)) :
    ∀ rows, parseSeries s = some rows →
      rows.map Prod.fst = s.map Prod.fst := by
  induction s with
  | nil =>
      intro rows h
      simp only [parseSeries, Option.some.injEq] at h
      subst h
      rfl
  | cons a rest ih =>
      intro rows h
      obtain ⟨t, b⟩ := a
      cases hb : parseBar b with
      | none => simp [parseSeries, hb] at h
      | some r =>
          cases hs : parseSeries rest with
          | none => simp [parseSeries, hb, hs] at h
          | some rs =>
              simp [parseSeries, hb, hs] at h
              subst h
              simp [ih rs hs]

/-- C7 (amended): `fetch_historical_data` fails with the
`DataUnavailable` error (with its descriptive message) exactly when the
response lacks the `'Time Series (5min)'` key; when the key is present
with a non-empty series all of whose field values parse as floats it
returns the timestamp-indexed five-column table; when the series is
empty the column assignment on the 0-column frame raises `ValueError`,
and when some value fails to parse the conversion raises `ValueError` —
in neither case is a table returned, and neither failure is
`DataUnavailable`. -/
theorem fetch_historical_data_contract
    (data : List (String × List (String × TSBar))) :
    (isDataUnavailable (fetch_historical_data data) = true ↔
      data.lookup tsKey = none) ∧
    (data.lookup tsKey = none →
      fetch_historical_data data =
        .error (.dataUnavailable "Failed to fetch data from Alpha Vantage")) ∧
    (∀ series rows, data.lookup tsKey = some series → series ≠ [] →
      parseSeries series = some rows →
      fetch_historical_data data = .ok rows ∧
      rows.map Prod.fst = series.map Prod.fst) ∧
    (∀ series, data.lookup tsKey = some series → series = [] →
      fetch_historical_data data = .error .valueError) ∧
    (∀ series, data.lookup tsKey = some series → series ≠ [] →
      parseSeries series = none →
      fetch_historical_data data = .error .valueError) := by
  refine ⟨?_, ?_, ?_, ?_, ?_⟩
  · cases hl : data.lookup tsKey with
    | none => simp [fetch_historical_data, hl, isDataUnavailable]
    | some series =>
        by_cases hse : series = []
        · simp [fetch_historical_data, hl, hse, isDataUnavailable]
        · cases hp : parseSeries series with
          | none => simp [fetch_historical_data, hl, hse, hp, isDataUnavailable]
          | some rows => simp [fetch_historical_data, hl, hse, hp, isDataUnavailable]
  · intro hl
    simp [fetch_historical_data, hl]
  · intro series rows hl hne hp
    exact ⟨by simp [fetch_historical_data, hl, hne, hp],
      parseSeries_map_fst series rows hp⟩
  · intro series hl hse
    simp [fetch_historical_data, hl, hse]
  · intro series hl hne hp
    simp [fetch_historical_data, hl, hne, hp]

/-- A well-formed one-bar response series. -/
def goodBar : TSBar := ⟨"188.2", "188.9", "187.5", "188.0", "1200"⟩

/-- `goodBar` after `astype(float)`. -/
def goodRaw : RawRow :=
  ⟨FVal.fin (941 / 5), FVal.fin (1889 / 10), FVal.fin (375 / 2),
   FVal.fin 188, FVal.fin 1200⟩

/-- A response carrying the series key next to a metadata-like key. -/
def c7goodData : List (String × List (String × TSBar)) :=
  [("Meta Data", []), (tsKey, [("2024-01-02 09:30:00", goodBar)])]

/-- A response whose series is present but holds a non-numeric `open`. -/
def c7badData : List (String × List (String × TSBar)) :=
  [(tsKey, [("2024-01-02 09:30:00", ⟨"abc", "188.9", "187.5", "188.0", "1200"⟩)])]

/-- Witness for C7's amended theorem on a well-formed response (key
present, series non-empty, every value numeric). -/
theorem fetch_historical_data_contract_witness :
    c7goodData.lookup tsKey = some [("2024-01-02 09:30:00", goodBar)] ∧
    ([("2024-01-02 09:30:00", goodBar)] : List (String × TSBar)) ≠ [] ∧
    parseSeries [("2024-01-02 09:30:00", goodBar)] =
      some [("2024-01-02 09:30:00", goodRaw)] ∧
    fetch_historical_data c7goodData =
      .ok [("2024-01-02 09:30:00", goodRaw)] ∧
    ([("2024-01-02 09:30:00", goodRaw)].map Prod.fst =
      [("2024-01-02 09:30:00", goodBar)].map Prod.fst) :=
  have h1 : c7goodData.lookup tsKey =
      some [("2024-01-02 09:30:00", goodBar)] := by with_unfolding_all decide
  have h0 : ([("2024-01-02 09:30:00", goodBar)] : List (String × TSBar)) ≠ [] := by
    with_unfolding_all decide
  have h2 : parseSeries [("2024-01-02 09:30:00", goodBar)] =
      some [("2024-01-02 09:30:00", goodRaw)] := by with_unfolding_all decide
  ⟨h1, h0, h2,
   ((fetch_historical_data_contract c7goodData).2.2.1 _ _ h1 h0 h2).1,
   ((fetch_historical_data_contract c7goodData).2.2.1 _ _ h1 h0 h2).2⟩

/-- C7 counterexample: with the series key present but a non-numeric
field value, the call neither returns a table nor fails with
`DataUnavailable` — it fails with the conversion `ValueError`, so
"otherwise it returns a table" is false as stated. -/
theorem fetch_value_error_cex :
    (c7badData.lookup tsKey).isSome = true ∧
    fetch_historical_data c7badData = .error .valueError ∧
    isDataUnavailable (fetch_historical_data c7badData) = false ∧
    ∀ rows, fetch_historical_data c7badData ≠ .ok rows := by
  have he : fetch_historical_data c7badData = .error .valueError := by
    with_unfolding_all decide
  refine ⟨by with_unfolding_all decide, he, by rw [he]; rfl, ?_⟩
  intro rows h
  rw [he] at h
  exact Except.noConfusion h

/-- An all-ones provider bar. -/
def oneBar : TSBar := ⟨"1", "1", "1", "1", "1"⟩

/-- A response with 21 all-ones bars: enough for exactly 2 rows to
survive feature derivation, hence exactly 1 training example. -/
def c8series : List (String × TSBar) :=
  (List.range 21).map (fun i => (toString i, oneBar))

/-- The 21-bar response wrapped under the series key. -/
def c8data : List (String × List (String × TSBar)) := [(tsKey, c8series)]

/-- The single feature row of the resulting training matrix. -/
def onesX : List (List FVal) :=
  [[FVal.fin 1, FVal.fin 1, FVal.fin 1, FVal.fin 1, FVal.fin 1]]

/-- C8: the source has no `InsufficientData` check.  On a response
yielding exactly one training example (fewer than 2), `train` succeeds
and fits on that single example instead of failing; the `DataUnavailable`
error from the fetch step does propagate (third conjunct). -/
theorem train_missing_insufficient_guard :
    (trainX (prepare_features (List.replicate 21 onesRow))).length = 1 ∧
    train PricePredictor.init c8data =
      .ok { model := some (onesX, [FVal.fin 1]), scaler := some onesX,
            features := ["open", "high", "low", "close", "volume"] } ∧
    train PricePredictor.init [("Error Message", [])] =
      .error (.fetchErr
        (.dataUnavailable "Failed to fetch data from Alpha Vantage")) := by
  with_unfolding_all decide

/-- C9: the training set built in `train` from the derived feature table
`f`: there are `f.length - 1` examples; example `i` has as input the five
base OHLCV values of row `i` and as label row `i + 1`'s close. -/
theorem train_examples_shift (f : List FeatRow) :
    (trainX f).length = f.length - 1 ∧
    (trainY f).length = f.length - 1 ∧
    ∀ i, i < f.length - 1 →
      (trainX f).getD i [] =
        [(f.getD i default).opn, (f.getD i default).high,
         (f.getD i default).low, (f.getD i default).close,
         (f.getD i default).volume] ∧
      (trainY f).getD i FVal.nan = (f.getD (i + 1) default).close := by
  have hX : (trainX f).length = f.length - 1 := by
    unfold trainX
    rw [List.length_dropLast, List.length_map]
  have hY : (trainY f).length = f.length - 1 := by
    unfold trainY
    rw [List.length_dropLast, List.length_map, List.length_range]
  refine ⟨hX, hY, ?_⟩
  intro i hi
  constructor
  · unfold trainX
    have h1 : i < (f.map (fun r =>
        [r.opn, r.high, r.low, r.close, r.volume])).dropLast.length := by
      rw [List.length_dropLast, List.length_map]
      omega
    rw [List.getD_eq_getElem _ _ h1, List.getElem_dropLast, List.getElem_map,
      List.getD_eq_getElem f _ (by omega)]
  · unfold trainY
    have h1 : i < ((List.range f.length).map (fun i =>
        (f.map FeatRow.close).getD (i + 1) FVal.nan)).dropLast.length := by
      rw [List.length_dropLast, List.length_map, List.length_range]
      omega
    rw [List.getD_eq_getElem _ _ h1, List.getElem_dropLast, List.getElem_map,
      List.getElem_range]
    have h2 : i + 1 < (f.map FeatRow.close).length := by
      rw [List.length_map]
      omega
    rw [List.getD_eq_getElem _ _ h2, List.getElem_map,
      List.getD_eq_getElem f _ (by omega)]

/-- Witness for C9 on the 21-row all-ones table (2 surviving rows, so one
example with input row 0 and label row 1's close). -/
theorem train_examples_shift_witness :
    0 < (prepare_features rows21ones).length - 1 ∧
    (trainX (prepare_features rows21ones)).length =
      (prepare_features rows21ones).length - 1 ∧
    (trainY (prepare_features rows21ones)).getD 0 FVal.nan =
      ((prepare_features rows21ones).getD 1 default).close :=
  ⟨by with_unfolding_all decide,
   (train_examples_shift (prepare_features rows21ones)).1,
   ((train_examples_shift (prepare_features rows21ones)).2.2 0
     (by with_unfolding_all decide)).2⟩
